import Mathlib

/-
Verification of the connection-establishment core of `urllib3/connection.py`
(connection variants `HTTPConnection`, `HTTPSConnection`,
`VerifiedHTTPSConnection`): dialing with timeout, socket-option application,
proxy tunneling, TLS wrapping, and post-handshake certificate verification.

The source file is shallow-embedded below.  External collaborators
(`socket.create_connection`, `httplib`'s `_tunnel`, the TLS handshake) are
modelled by an `Env` record of their outcomes; helpers imported from
`urllib3.util` and `ssl` whose bodies are not in the source tree
(`resolve_cert_reqs`, `assert_fingerprint`, `match_hostname`) are modelled
from the specification and marked as such in their doc comments.
-/

namespace Urllib3

/-- A `(level, optname, value)` socket option triple, as applied by
`conn.setsockopt(*opt)`. -/
abbrev SockOpt := Nat × Nat × Nat

/-- Numeric value of `socket.IPPROTO_TCP`. -/
def IPPROTO_TCP : Nat := 6

/-- Numeric value of `socket.TCP_NODELAY`. -/
def TCP_NODELAY : Nat := 1

/-- `HTTPConnection.default_socket_options`: disable Nagle's algorithm,
`[(socket.IPPROTO_TCP, socket.TCP_NODELAY, 1)]`. -/
def default_socket_options : List SockOpt := [(IPPROTO_TCP, TCP_NODELAY, 1)]

/-- `HTTPConnection.__init__`'s handling of the `socket_options` keyword:
`kw.pop('socket_options', self.default_socket_options)`.  The outer `Option`
is keyword presence (`none` = keyword absent), the inner `Option` is the
passed value (`none` = an explicit Python `None`). -/
def initSocketOptions : Option (Option (List SockOpt)) → Option (List SockOpt)
  | none => some default_socket_options
  | some v => v

/-- `HTTPConnection._set_options_on`: with `socket_options = None` nothing is
applied; otherwise each triple of the list is applied to the socket in list
order.  The result is the ordered sequence of applied triples. -/
def set_options_on : Option (List SockOpt) → List SockOpt
  | none => []
  | some opts => opts

/-- Certificate-requirement constants from the `ssl` module. -/
inductive CertReqs
  | certNone
  | certOptional
  | certRequired
  deriving DecidableEq, Repr

/-- Modelled from the spec: `resolve_cert_reqs` lives in `urllib3.util`, which
is not in the source tree.  Per the spec the TLS wrapper "resolves an effective
verification-requirement value (explicit config or library default — default is
'verify required' for the security-sensitive variant)". -/
def resolve_cert_reqs : Option CertReqs → CertReqs
  | none => .certRequired
  | some r => r

/-- The peer certificate as observed after a successful handshake: its parsed
subject/SAN hostnames (`getpeercert()`) and its exact binary fingerprint (the
spec treats the digest `fingerprint(C)` of `getpeercert(binary_form=True)`
abstractly as a byte sequence attached to the certificate). -/
structure Cert where
  names : List String
  fingerprint : List Nat
  deriving DecidableEq, Repr

/-- Modelled from the spec: `assert_fingerprint` lives in `urllib3.util`, which
is not in the source tree.  Per the spec it "computes the exact binary
fingerprint of the peer's certificate and compares byte-for-byte to the
expected value". -/
def checkFingerprint (cert : Cert) (expected : List Nat) : Bool :=
  decide (cert.fingerprint = expected)

/-- Modelled from the spec: one pattern of `match_hostname` (imported from
`ssl`, not in the source tree) against one hostname — exact match, or a
single-label wildcard: `*.example.com` matches `foo.example.com` but not
`foo.bar.example.com`. -/
def hostnameMatchesPattern (pat host : String) : Bool :=
  if pat = host then true
  else
    match pat.splitOn "." with
    | "*" :: patRest =>
      (match host.splitOn "." with
       | _ :: hostRest => decide (patRest = hostRest) && decide (patRest ≠ [])
       | [] => false)
    | _ => false

/-- Modelled from the spec: `match_hostname` succeeds iff the hostname matches
a subject/SAN entry of the certificate under standard wildcard rules. -/
def match_hostname (cert : Cert) (host : String) : Bool :=
  cert.names.any (fun p => hostnameMatchesPattern p host)

/-- The `assert_hostname` attribute stored by `set_cert`: Python `None`
(unset), `False` (hostname assertion explicitly disabled), or a hostname
string overriding the connection host. -/
inductive AssertHostname
  | unset
  | disabled
  | hostOverride (s : String)
  deriving DecidableEq, Repr

/-- The guard `self.assert_hostname is not False`. -/
def assertHostnameEnabled : AssertHostname → Bool
  | .disabled => false
  | _ => true

/-- The expression `self.assert_hostname or hostname`: a truthy (non-empty)
override string wins, otherwise the computed hostname. -/
def hostArg : AssertHostname → String → String
  | .hostOverride s, h => if s = "" then h else s
  | _, h => h

/-- Python truthiness of the `assert_fingerprint` attribute in
`if self.assert_fingerprint:` — `None` and an empty value are falsy. -/
def fingerprintTruthy : Option (List Nat) → Bool
  | some (_ :: _) => true
  | _ => false

/-- The typed failures a connection attempt can surface. -/
inductive ConnError
  | connectTimeoutErr (host : String) (timeout : Option Nat)
  | tunnelErr
  | sslHandshakeErr
  | fingerprintMismatch (got expected : List Nat)
  | hostnameMismatch (names : List String) (host : String)
  | attrErr (name : String)
  deriving DecidableEq, Repr

/-- The connection states of the spec's state machine. -/
inductive ConnState
  | Unconnected
  | RawConnected
  | Tunneled
  | TLSWrapped
  | Ready
  | Failed
  deriving DecidableEq, Repr

/-- Forward rank of a state; `Failed` is terminal and ranks above all. -/
def ConnState.rank : ConnState → Nat
  | .Unconnected => 0
  | .RawConnected => 1
  | .Tunneled => 2
  | .TLSWrapped => 3
  | .Ready => 4
  | .Failed => 5

/-- A post-handshake verification check performed by
`VerifiedHTTPSConnection.connect`, with the arguments it received. -/
inductive CheckEvent
  | fingerprintCheck (peerFingerprint expected : List Nat)
  | hostnameCheck (names : List String) (host : String)
  deriving DecidableEq, Repr

/-- Outcomes of the external collaborators for one attempt: whether the raw
TCP dial succeeds (`false` = `socket.timeout` from `create_connection`),
whether the delegated `_tunnel()` handshake succeeds, and the TLS handshake
result (`none` = handshake failure, otherwise the peer certificate). -/
structure Env where
  dialOk : Bool
  tunnelOk : Bool
  handshake : Option Cert
  deriving DecidableEq, Repr

/-- Configuration common to all connection variants.  `tunnel_host` models the
`_tunnel_host` attribute set by `set_tunnel` (proxy target, `none` if no
tunnel is configured). -/
structure Config where
  host : String
  port : Nat
  timeout : Option Nat
  socket_options : Option (List SockOpt)
  tunnel_host : Option String
  deriving DecidableEq, Repr

/-- The attributes stored by `VerifiedHTTPSConnection.set_cert`.
`VerifiedHTTPSConnection` has class-level defaults for `cert_reqs`,
`ca_certs` and `ssl_version` but none for `assert_hostname` and
`assert_fingerprint`, so the latter exist only after `set_cert` runs. -/
structure CertAttrs where
  assert_fingerprint : Option (List Nat)
  assert_hostname : AssertHostname
  deriving DecidableEq, Repr

/-- Configuration of the verified variant.  `certAttrs = none` models a
connection on which `set_cert` was never called. -/
structure VerifiedConfig where
  base : Config
  cert_reqs : Option CertReqs
  certAttrs : Option CertAttrs
  deriving DecidableEq, Repr

/-- `VerifiedHTTPSConnection.set_cert`: stores the verification attributes on
the connection. -/
def set_cert (c : VerifiedConfig) (cert_reqs : Option CertReqs)
    (fp : Option (List Nat)) (ah : AssertHostname) : VerifiedConfig :=
  { c with cert_reqs := cert_reqs, certAttrs := some ⟨fp, ah⟩ }

/-- Everything observable about one `connect()` attempt: the ordered state
trace, the typed result, the final `auto_open` flag (1 = reusable, 0 = marked
non-reusable after a tunnel), the socket options applied in order, the
`server_hostname` handed to the TLS wrap call (`none` if no such argument was
passed or no wrap happened), the certificate-requirement value the wrap used
(`none` if no wrap happened), and the verification checks performed. -/
structure Outcome where
  trace : List ConnState
  result : Except ConnError Unit
  auto_open : Nat
  applied_options : List SockOpt
  wrapped_hostname : Option String
  wrap_cert_reqs : Option CertReqs
  checks : List CheckEvent
  deriving Repr

/-- `HTTPConnection.connect`: `_new_conn` (dial with timeout, then
`_set_options_on`) followed by `_prepare_conn` (store the socket; if a tunnel
host is configured, run `_tunnel()` and set `auto_open = 0`). -/
def HTTPConnection.connect (c : Config) (env : Env) : Outcome :=
  if env.dialOk then
    let applied := set_options_on c.socket_options
    match c.tunnel_host with
    | none =>
      { trace := [.Unconnected, .RawConnected, .Ready]
        result := .ok ()
        auto_open := 1
        applied_options := applied
        wrapped_hostname := none
        wrap_cert_reqs := none
        checks := [] }
    | some _ =>
      if env.tunnelOk then
        { trace := [.Unconnected, .RawConnected, .Tunneled, .Ready]
          result := .ok ()
          auto_open := 0
          applied_options := applied
          wrapped_hostname := none
          wrap_cert_reqs := none
          checks := [] }
      else
        { trace := [.Unconnected, .RawConnected, .Failed]
          result := .error .tunnelErr
          auto_open := 1
          applied_options := applied
          wrapped_hostname := none
          wrap_cert_reqs := none
          checks := [] }
  else
    { trace := [.Unconnected, .Failed]
      result := .error (.connectTimeoutErr c.host c.timeout)
      auto_open := 1
      applied_options := []
      wrapped_hostname := none
      wrap_cert_reqs := none
      checks := [] }

/-- `HTTPSConnection.connect` (the unverified variant): `_new_conn`,
`_prepare_conn` (tunnel if configured), then
`self.sock = ssl.wrap_socket(conn, self.key_file, self.cert_file)` — the
stdlib wrapper, whose default certificate requirement is `CERT_NONE` and which
receives no server hostname; no post-handshake check follows. -/
def HTTPSConnection.connect (c : Config) (env : Env) : Outcome :=
  if env.dialOk then
    let applied := set_options_on c.socket_options
    let tlsPhase : Nat → List ConnState → Outcome := fun auto pre =>
      match env.handshake with
      | none =>
        { trace := pre ++ [.Failed]
          result := .error .sslHandshakeErr
          auto_open := auto
          applied_options := applied
          wrapped_hostname := none
          wrap_cert_reqs := some .certNone
          checks := [] }
      | some _ =>
        { trace := pre ++ [.TLSWrapped, .Ready]
          result := .ok ()
          auto_open := auto
          applied_options := applied
          wrapped_hostname := none
          wrap_cert_reqs := some .certNone
          checks := [] }
    match c.tunnel_host with
    | none => tlsPhase 1 [.Unconnected, .RawConnected]
    | some _ =>
      if env.tunnelOk then
        tlsPhase 0 [.Unconnected, .RawConnected, .Tunneled]
      else
        { trace := [.Unconnected, .RawConnected, .Failed]
          result := .error .tunnelErr
          auto_open := 1
          applied_options := applied
          wrapped_hostname := none
          wrap_cert_reqs := none
          checks := [] }
  else
    { trace := [.Unconnected, .Failed]
      result := .error (.connectTimeoutErr c.host c.timeout)
      auto_open := 1
      applied_options := []
      wrapped_hostname := none
      wrap_cert_reqs := none
      checks := [] }

/-- The TLS wrap and post-handshake verification of
`VerifiedHTTPSConnection.connect`, entered after dial (and tunnel, when one is
configured) with the verification `hostname` already substituted: wrap with
the resolved requirements and `server_hostname = hostname`; then, if the
resolved requirement is not `CERT_NONE`, run the fingerprint check when
`assert_fingerprint` is truthy, else the hostname check against
`self.assert_hostname or hostname` unless `assert_hostname is False`.
Accessing `self.assert_fingerprint` without a prior `set_cert` raises
`AttributeError`. -/
def verifiedTLSPhase (c : VerifiedConfig) (env : Env) (resolved : CertReqs)
    (applied : List SockOpt) (hostname : String) (auto : Nat)
    (pre : List ConnState) : Outcome :=
  match env.handshake with
  | none =>
    { trace := pre ++ [.Failed]
      result := .error .sslHandshakeErr
      auto_open := auto
      applied_options := applied
      wrapped_hostname := some hostname
      wrap_cert_reqs := some resolved
      checks := [] }
  | some cert =>
    if resolved = .certNone then
      { trace := pre ++ [.TLSWrapped, .Ready]
        result := .ok ()
        auto_open := auto
        applied_options := applied
        wrapped_hostname := some hostname
        wrap_cert_reqs := some resolved
        checks := [] }
    else
      match c.certAttrs with
      | none =>
        { trace := pre ++ [.TLSWrapped, .Failed]
          result := .error (.attrErr "assert_fingerprint")
          auto_open := auto
          applied_options := applied
          wrapped_hostname := some hostname
          wrap_cert_reqs := some resolved
          checks := [] }
      | some a =>
        if fingerprintTruthy a.assert_fingerprint then
          let fp := a.assert_fingerprint.getD []
          if checkFingerprint cert fp then
            { trace := pre ++ [.TLSWrapped, .Ready]
              result := .ok ()
              auto_open := auto
              applied_options := applied
              wrapped_hostname := some hostname
              wrap_cert_reqs := some resolved
              checks := [.fingerprintCheck cert.fingerprint fp] }
          else
            { trace := pre ++ [.TLSWrapped, .Failed]
              result := .error (.fingerprintMismatch cert.fingerprint fp)
              auto_open := auto
              applied_options := applied
              wrapped_hostname := some hostname
              wrap_cert_reqs := some resolved
              checks := [.fingerprintCheck cert.fingerprint fp] }
        else if assertHostnameEnabled a.assert_hostname then
          let h := hostArg a.assert_hostname hostname
          if match_hostname cert h then
            { trace := pre ++ [.TLSWrapped, .Ready]
              result := .ok ()
              auto_open := auto
              applied_options := applied
              wrapped_hostname := some hostname
              wrap_cert_reqs := some resolved
              checks := [.hostnameCheck cert.names h] }
          else
            { trace := pre ++ [.TLSWrapped, .Failed]
              result := .error (.hostnameMismatch cert.names h)
              auto_open := auto
              applied_options := applied
              wrapped_hostname := some hostname
              wrap_cert_reqs := some resolved
              checks := [.hostnameCheck cert.names h] }
        else
          { trace := pre ++ [.TLSWrapped, .Ready]
            result := .ok ()
            auto_open := auto
            applied_options := applied
            wrapped_hostname := some hostname
            wrap_cert_reqs := some resolved
            checks := [] }

/-- `VerifiedHTTPSConnection.connect`: dial via `_new_conn`, resolve the
certificate requirements, and if `_tunnel_host` is set run `_tunnel()`, set
`auto_open = 0` and substitute the tunnel target for the verification
hostname; then the TLS wrap and verification phase. -/
def VerifiedHTTPSConnection.connect (c : VerifiedConfig) (env : Env) : Outcome :=
  if env.dialOk then
    let applied := set_options_on c.base.socket_options
    let resolved := resolve_cert_reqs c.cert_reqs
    match c.base.tunnel_host with
    | none =>
      verifiedTLSPhase c env resolved applied c.base.host 1
        [.Unconnected, .RawConnected]
    | some th =>
      if env.tunnelOk then
        verifiedTLSPhase c env resolved applied th 0
          [.Unconnected, .RawConnected, .Tunneled]
      else
        { trace := [.Unconnected, .RawConnected, .Failed]
          result := .error .tunnelErr
          auto_open := 1
          applied_options := applied
          wrapped_hostname := none
          wrap_cert_reqs := none
          checks := [] }
  else
    { trace := [.Unconnected, .Failed]
      result := .error (.connectTimeoutErr c.base.host c.base.timeout)
      auto_open := 1
      applied_options := []
      wrapped_hostname := none
      wrap_cert_reqs := none
      checks := [] }

/-- A well-formed attempt trace: strictly forward (no cycles or backtracking),
starting at `Unconnected`, ending at `Ready` exactly when the attempt
succeeded and at the terminal `Failed` exactly when it failed. -/
def traceOk (o : Outcome) : Prop :=
  o.trace.Chain' (fun s t => s.rank < t.rank) ∧
  o.trace.head? = some ConnState.Unconnected ∧
  (o.result = .ok () ↔ o.trace.getLast? = some ConnState.Ready) ∧
  ((∃ e, o.result = .error e) ↔ o.trace.getLast? = some ConnState.Failed)

/-! ## Helper lemmas -/

theorem HTTPConnection.connect_applied (c : Config) (env : Env)
    (hd : env.dialOk = true) :
    (HTTPConnection.connect c env).applied_options
      = set_options_on c.socket_options := by
  cases htn : c.tunnel_host <;> cases htk : env.tunnelOk <;>
    simp [HTTPConnection.connect, hd, htn, htk]

theorem verified_connect_no_tunnel (c : VerifiedConfig) (env : Env)
    (hd : env.dialOk = true) (ht : c.base.tunnel_host = none) :
    VerifiedHTTPSConnection.connect c env
      = verifiedTLSPhase c env (resolve_cert_reqs c.cert_reqs)
          (set_options_on c.base.socket_options) c.base.host 1
          [.Unconnected, .RawConnected] := by
  simp [VerifiedHTTPSConnection.connect, hd, ht]

theorem verified_connect_tunnel (c : VerifiedConfig) (env : Env) (th : String)
    (hd : env.dialOk = true) (ht : c.base.tunnel_host = some th)
    (htk : env.tunnelOk = true) :
    VerifiedHTTPSConnection.connect c env
      = verifiedTLSPhase c env (resolve_cert_reqs c.cert_reqs)
          (set_options_on c.base.socket_options) th 0
          [.Unconnected, .RawConnected, .Tunneled] := by
  simp [VerifiedHTTPSConnection.connect, hd, ht, htk]

theorem phase_dispatch (c : VerifiedConfig) (env : Env) (a : CertAttrs)
    (cert : Cert) (resolved : CertReqs) (applied : List SockOpt)
    (hostname : String) (auto : Nat) (pre : List ConnState)
    (hh : env.handshake = some cert) (ha : c.certAttrs = some a)
    (hr : resolved ≠ .certNone) :
    (∀ fp, a.assert_fingerprint = some fp → fp ≠ [] →
      (verifiedTLSPhase c env resolved applied hostname auto pre).checks
          = [.fingerprintCheck cert.fingerprint fp] ∧
      ((verifiedTLSPhase c env resolved applied hostname auto pre).result
          = .ok () ↔ cert.fingerprint = fp)) ∧
    (fingerprintTruthy a.assert_fingerprint = false →
      assertHostnameEnabled a.assert_hostname = true →
      (verifiedTLSPhase c env resolved applied hostname auto pre).checks
          = [.hostnameCheck cert.names (hostArg a.assert_hostname hostname)] ∧
      ((verifiedTLSPhase c env resolved applied hostname auto pre).result
          = .ok ()
        ↔ match_hostname cert (hostArg a.assert_hostname hostname) = true)) ∧
    (fingerprintTruthy a.assert_fingerprint = false →
      a.assert_hostname = .disabled →
      (verifiedTLSPhase c env resolved applied hostname auto pre).checks = []
        ∧
      (verifiedTLSPhase c env resolved applied hostname auto pre).result
          = .ok () ∧
      (verifiedTLSPhase c env resolved applied hostname auto pre).trace
          = pre ++ [.TLSWrapped, .Ready]) := by
  refine ⟨?_, ?_, ?_⟩
  · rintro fp hfp hne
    obtain ⟨x, xs, rfl⟩ := List.exists_cons_of_ne_nil hne
    by_cases hc : cert.fingerprint = x :: xs <;>
      simp [verifiedTLSPhase, hh, hr, ha, hfp, fingerprintTruthy,
        checkFingerprint, hc]
  · intro hft hen
    by_cases hm : match_hostname cert (hostArg a.assert_hostname hostname)
        = true <;>
      simp [verifiedTLSPhase, hh, hr, ha, hft, hen, hm]
  · intro hft hdis
    simp [verifiedTLSPhase, hh, hr, ha, hft, hdis, assertHostnameEnabled]

theorem phase_checks_length (c : VerifiedConfig) (env : Env)
    (resolved : CertReqs) (applied : List SockOpt) (hostname : String)
    (auto : Nat) (pre : List ConnState) :
    (verifiedTLSPhase c env resolved applied hostname auto pre).checks.length
      ≤ 1 := by
  cases hh : env.handshake <;> cases hca : c.certAttrs <;>
    simp only [verifiedTLSPhase, hh, hca] <;> (try split_ifs) <;> simp

theorem phase_auto_open (c : VerifiedConfig) (env : Env) (resolved : CertReqs)
    (applied : List SockOpt) (hostname : String) (auto : Nat)
    (pre : List ConnState) :
    (verifiedTLSPhase c env resolved applied hostname auto pre).auto_open
      = auto := by
  cases hh : env.handshake <;> cases hca : c.certAttrs <;>
    simp only [verifiedTLSPhase, hh, hca] <;> (try split_ifs) <;> rfl

theorem phase_wrapped_hostname (c : VerifiedConfig) (env : Env)
    (resolved : CertReqs) (applied : List SockOpt) (hostname : String)
    (auto : Nat) (pre : List ConnState) :
    (verifiedTLSPhase c env resolved applied hostname auto pre).wrapped_hostname
      = some hostname := by
  cases hh : env.handshake <;> cases hca : c.certAttrs <;>
    simp only [verifiedTLSPhase, hh, hca] <;> (try split_ifs) <;> rfl

/-! ## Claim theorems -/

/-- C3: for every dial attempt, in every variant, expiry of the configured
connect timeout fails the dial with the distinguished `ConnectTimeoutError`
carrying the host and the configured timeout value, not a generic timeout. -/
theorem connect_timeout_distinguished (c : Config) (vc : VerifiedConfig)
    (env : Env) (hd : env.dialOk = false) :
    (HTTPConnection.connect c env).result
        = .error (.connectTimeoutErr c.host c.timeout) ∧
    (HTTPSConnection.connect c env).result
        = .error (.connectTimeoutErr c.host c.timeout) ∧
    (VerifiedHTTPSConnection.connect vc env).result
        = .error (.connectTimeoutErr vc.base.host vc.base.timeout) := by
  refine ⟨?_, ?_, ?_⟩ <;>
    simp [HTTPConnection.connect, HTTPSConnection.connect,
      VerifiedHTTPSConnection.connect, hd]

/-- C3 witness. -/
theorem connect_timeout_distinguished_witness :
    (HTTPConnection.connect ⟨"example.com", 80, some 5, none, none⟩
        ⟨false, false, none⟩).result
      = .error (.connectTimeoutErr "example.com" (some 5)) :=
  (connect_timeout_distinguished ⟨"example.com", 80, some 5, none, none⟩
    ⟨⟨"example.com", 443, some 5, none, none⟩, none, none⟩
    ⟨false, false, none⟩ rfl).1

/-- C4: an explicit `None` socket-option list applies no options; an absent
keyword yields the library default list, which is exactly one option disabling
Nagle's algorithm (level TCP, name no-delay, value 1); and a non-`None` list
is applied one triple at a time in list order. -/
theorem socket_options_semantics (c : Config) (env : Env)
    (hd : env.dialOk = true) :
    (c.socket_options = none →
      (HTTPConnection.connect c env).applied_options = []) ∧
    initSocketOptions none = some default_socket_options ∧
    default_socket_options = [(IPPROTO_TCP, TCP_NODELAY, 1)] ∧
    (∀ l, c.socket_options = some l →
      (HTTPConnection.connect c env).applied_options = l) := by
  refine ⟨?_, rfl, rfl, ?_⟩
  · intro hn
    rw [HTTPConnection.connect_applied c env hd, hn, set_options_on]
  · intro l hl
    rw [HTTPConnection.connect_applied c env hd, hl, set_options_on]

/-- C4 witness. -/
theorem socket_options_semantics_witness :
    (HTTPConnection.connect ⟨"h", 80, none, none, none⟩
        ⟨true, false, none⟩).applied_options = [] :=
  (socket_options_semantics ⟨"h", 80, none, none, none⟩
    ⟨true, false, none⟩ rfl).1 rfl

/-- C5: the unverified HTTPS variant wraps with no certificate-chain checking
at all, for every configuration: any TLS wrap it performs uses `CERT_NONE`,
and no fingerprint check and no hostname check runs after the handshake. -/
theorem unverified_no_checks (c : Config) (env : Env) :
    (HTTPSConnection.connect c env).checks = [] ∧
    ∀ r, (HTTPSConnection.connect c env).wrap_cert_reqs = some r →
      r = CertReqs.certNone := by
  cases hd : env.dialOk <;> cases htn : c.tunnel_host <;>
    cases htk : env.tunnelOk <;> cases hh : env.handshake <;>
    simp [HTTPSConnection.connect, hd, htn, htk, hh]

/-- C5 witness. -/
theorem unverified_no_checks_witness :
    (HTTPSConnection.connect ⟨"h", 443, none, none, none⟩
        ⟨true, false, some ⟨["h"], [1]⟩⟩).checks = [] ∧
    CertReqs.certNone = CertReqs.certNone :=
  ⟨(unverified_no_checks ⟨"h", 443, none, none, none⟩
      ⟨true, false, some ⟨["h"], [1]⟩⟩).1,
   (unverified_no_checks ⟨"h", 443, none, none, none⟩
      ⟨true, false, some ⟨["h"], [1]⟩⟩).2 CertReqs.certNone (by rfl)⟩

/-- C8: for the plain HTTP and unverified HTTPS variants too, a configured
tunnel host makes `connect` perform the tunnel handshake immediately after
the raw connection and permanently mark the connection non-reusable
(`auto_open = 0`). -/
theorem plain_and_unverified_tunnel (c : Config) (env : Env) (th : String)
    (hd : env.dialOk = true) (htn : c.tunnel_host = some th)
    (htk : env.tunnelOk = true) :
    (HTTPConnection.connect c env).auto_open = 0 ∧
    (HTTPConnection.connect c env).trace
      = [.Unconnected, .RawConnected, .Tunneled, .Ready] ∧
    (HTTPSConnection.connect c env).auto_open = 0 ∧
    ∃ rest, (HTTPSConnection.connect c env).trace
      = ConnState.Unconnected :: ConnState.RawConnected ::
          ConnState.Tunneled :: rest := by
  cases hh : env.handshake <;>
    simp [HTTPConnection.connect, HTTPSConnection.connect, hd, htn, htk, hh]

/-- C1: for the verified variant with resolved mode not `CERT_NONE`, at most
one post-handshake check runs and fingerprint takes precedence: with a
configured (truthy) fingerprint the peer certificate's binary fingerprint is
compared to it and verification succeeds iff they are equal, independent of
hostname; otherwise, unless assert-hostname is explicitly `False`, the
hostname is matched against the certificate; and with assert-hostname
explicitly `False` and no fingerprint, no check at all runs and the
connection reaches `Ready`. -/
theorem verified_check_dispatch (c : VerifiedConfig) (env : Env)
    (a : CertAttrs) (cert : Cert)
    (hd : env.dialOk = true)
    (ht : c.base.tunnel_host = none ∨ env.tunnelOk = true)
    (hh : env.handshake = some cert)
    (ha : c.certAttrs = some a)
    (hr : resolve_cert_reqs c.cert_reqs ≠ .certNone) :
    (∀ fp, a.assert_fingerprint = some fp → fp ≠ [] →
      (VerifiedHTTPSConnection.connect c env).checks
          = [.fingerprintCheck cert.fingerprint fp] ∧
      ((VerifiedHTTPSConnection.connect c env).result = .ok ()
          ↔ cert.fingerprint = fp)) ∧
    (fingerprintTruthy a.assert_fingerprint = false →
      assertHostnameEnabled a.assert_hostname = true →
      ∃ h, (VerifiedHTTPSConnection.connect c env).checks
          = [.hostnameCheck cert.names h]) ∧
    (fingerprintTruthy a.assert_fingerprint = false →
      a.assert_hostname = .disabled →
      (VerifiedHTTPSConnection.connect c env).checks = [] ∧
      (VerifiedHTTPSConnection.connect c env).result = .ok () ∧
      (VerifiedHTTPSConnection.connect c env).trace.getLast?
          = some ConnState.Ready) ∧
    (VerifiedHTTPSConnection.connect c env).checks.length ≤ 1 := by
  obtain ⟨hostname, auto, pre, hEq, hpre⟩ :
      ∃ hostname auto pre,
        VerifiedHTTPSConnection.connect c env
            = verifiedTLSPhase c env (resolve_cert_reqs c.cert_reqs)
                (set_options_on c.base.socket_options) hostname auto pre ∧
          (pre ++ [ConnState.TLSWrapped, ConnState.Ready]).getLast?
              = some ConnState.Ready := by
    rcases ht with ht | htk
    · exact ⟨c.base.host, 1, _, verified_connect_no_tunnel c env hd ht,
        by decide⟩
    · cases htn : c.base.tunnel_host with
      | none => exact ⟨c.base.host, 1, _,
          verified_connect_no_tunnel c env hd htn, by decide⟩
      | some th => exact ⟨th, 0, _,
          verified_connect_tunnel c env th hd htn htk, by decide⟩
  rw [hEq]
  obtain ⟨p1, p2, p3⟩ := phase_dispatch c env a cert (resolve_cert_reqs
    c.cert_reqs) (set_options_on c.base.socket_options) hostname auto pre
    hh ha hr
  refine ⟨p1, ?_, ?_, phase_checks_length c env _ _ hostname auto pre⟩
  · intro hft hen
    exact ⟨hostArg a.assert_hostname hostname, (p2 hft hen).1⟩
  · intro hft hdis
    obtain ⟨h1, h2, h3⟩ := p3 hft hdis
    exact ⟨h1, h2, by rw [h3]; exact hpre⟩

/-- C1 witness. -/
theorem verified_check_dispatch_witness :
    (VerifiedHTTPSConnection.connect
        ⟨⟨"example.com", 443, none, none, none⟩, some .certRequired,
          some ⟨some [222], .unset⟩⟩
        ⟨true, false, some ⟨["example.com"], [222]⟩⟩).checks
      = [.fingerprintCheck [222] [222]] :=
  ((verified_check_dispatch
      ⟨⟨"example.com", 443, none, none, none⟩, some .certRequired,
        some ⟨some [222], .unset⟩⟩
      ⟨true, false, some ⟨["example.com"], [222]⟩⟩
      ⟨some [222], .unset⟩ ⟨["example.com"], [222]⟩
      rfl (Or.inl rfl) rfl rfl (by decide)).1 [222] rfl (by decide)).1

/-- C9: with no (truthy) fingerprint configured and `assert_hostname` set to
a truthy string, hostname verification matches the certificate against that
override string instead of the connection host or tunnel-target hostname. -/
theorem hostname_override_used (c : VerifiedConfig) (env : Env)
    (a : CertAttrs) (cert : Cert) (s : String)
    (hd : env.dialOk = true)
    (ht : c.base.tunnel_host = none ∨ env.tunnelOk = true)
    (hh : env.handshake = some cert)
    (ha : c.certAttrs = some a)
    (hr : resolve_cert_reqs c.cert_reqs ≠ .certNone)
    (hft : fingerprintTruthy a.assert_fingerprint = false)
    (hs : a.assert_hostname = .hostOverride s) (hns : s ≠ "") :
    (VerifiedHTTPSConnection.connect c env).checks
      = [.hostnameCheck cert.names s] ∧
    ((VerifiedHTTPSConnection.connect c env).result = .ok ()
      ↔ match_hostname cert s = true) := by
  obtain ⟨hostname, auto, pre, hEq⟩ :
      ∃ hostname auto pre,
        VerifiedHTTPSConnection.connect c env
            = verifiedTLSPhase c env (resolve_cert_reqs c.cert_reqs)
                (set_options_on c.base.socket_options) hostname auto pre := by
    rcases ht with ht | htk
    · exact ⟨c.base.host, 1, _, verified_connect_no_tunnel c env hd ht⟩
    · cases htn : c.base.tunnel_host with
      | none => exact ⟨c.base.host, 1, _,
          verified_connect_no_tunnel c env hd htn⟩
      | some th => exact ⟨th, 0, _,
          verified_connect_tunnel c env th hd htn htk⟩
  rw [hEq]
  have h2 := (phase_dispatch c env a cert (resolve_cert_reqs c.cert_reqs)
    (set_options_on c.base.socket_options) hostname auto pre hh ha hr).2.1
    hft (by rw [hs]; rfl)
  rw [hs] at h2
  simpa [hostArg, hns] using h2

/-- C9 witness. -/
theorem hostname_override_used_witness :
    (VerifiedHTTPSConnection.connect
        ⟨⟨"example.com", 443, none, none, none⟩, some .certRequired,
          some ⟨none, .hostOverride "alt.example.com"⟩⟩
        ⟨true, false, some ⟨["alt.example.com"], [1]⟩⟩).checks
      = [.hostnameCheck ["alt.example.com"] "alt.example.com"] :=
  (hostname_override_used
      ⟨⟨"example.com", 443, none, none, none⟩, some .certRequired,
        some ⟨none, .hostOverride "alt.example.com"⟩⟩
      ⟨true, false, some ⟨["alt.example.com"], [1]⟩⟩
      ⟨none, .hostOverride "alt.example.com"⟩ ⟨["alt.example.com"], [1]⟩
      "alt.example.com" rfl (Or.inl rfl) rfl rfl (by decide) rfl rfl
      (by decide)).1

/-- C2: in the verified variant a successful tunnel handshake marks the
connection non-reusable (`auto_open = 0`), and the subsequent TLS wrap and
certificate checks use the tunnel's target hostname, never the proxy's
host. -/
theorem tunnel_hostname_substitution (c : VerifiedConfig) (env : Env)
    (th : String)
    (hd : env.dialOk = true) (htn : c.base.tunnel_host = some th)
    (htk : env.tunnelOk = true) (hne : th ≠ c.base.host) :
    (VerifiedHTTPSConnection.connect c env).auto_open = 0 ∧
    (VerifiedHTTPSConnection.connect c env).wrapped_hostname = some th ∧
    (∀ a, c.certAttrs = some a → a.assert_hostname = .unset →
      ∀ names h,
        CheckEvent.hostnameCheck names h
            ∈ (VerifiedHTTPSConnection.connect c env).checks →
          h = th ∧ h ≠ c.base.host) := by
  rw [verified_connect_tunnel c env th hd htn htk]
  refine ⟨phase_auto_open c env _ _ th 0 _,
    phase_wrapped_hostname c env _ _ th 0 _, ?_⟩
  rintro ⟨af, ah⟩ hca hu names h hmem
  dsimp only at hu
  subst hu
  revert hmem
  cases hh : env.handshake with
  | none => simp [verifiedTLSPhase, hh]
  | some cert =>
    by_cases hres : resolve_cert_reqs c.cert_reqs = CertReqs.certNone
    · simp [verifiedTLSPhase, hh, hres]
    · by_cases hft : fingerprintTruthy af
      · by_cases hc : checkFingerprint cert (af.getD []) <;>
          simp [verifiedTLSPhase, hh, hres, hca, hft, hc]
      · by_cases hm : match_hostname cert th = true <;>
        · simp only [verifiedTLSPhase, hh, hca, if_neg hres,
            assertHostnameEnabled, hostArg, Bool.false_eq_true, if_false,
            eq_self_iff_true, if_true, hft, hm]
          intro hmem
          rcases List.mem_singleton.mp hmem with hEv
          cases hEv
          exact ⟨rfl, hne⟩

theorem phase_cases (c : VerifiedConfig) (env : Env) (resolved : CertReqs)
    (applied : List SockOpt) (hostname : String) (auto : Nat)
    (pre : List ConnState) :
    (∃ e, (verifiedTLSPhase c env resolved applied hostname auto pre).result
        = .error e ∧
      ((verifiedTLSPhase c env resolved applied hostname auto pre).trace
          = pre ++ [ConnState.Failed] ∨
       (verifiedTLSPhase c env resolved applied hostname auto pre).trace
          = pre ++ [ConnState.TLSWrapped, ConnState.Failed])) ∨
    ((verifiedTLSPhase c env resolved applied hostname auto pre).result
        = .ok () ∧
     (verifiedTLSPhase c env resolved applied hostname auto pre).trace
        = pre ++ [ConnState.TLSWrapped, ConnState.Ready]) := by
  cases hh : env.handshake <;> cases hca : c.certAttrs <;>
    simp only [verifiedTLSPhase, hh, hca] <;> (try split_ifs) <;> simp

theorem traceOk_phase (c : VerifiedConfig) (env : Env) (resolved : CertReqs)
    (applied : List SockOpt) (hostname : String) (auto : Nat)
    (pre : List ConnState)
    (hpre : pre = [ConnState.Unconnected, ConnState.RawConnected] ∨
            pre = [ConnState.Unconnected, ConnState.RawConnected,
                   ConnState.Tunneled]) :
    traceOk (verifiedTLSPhase c env resolved applied hostname auto pre) := by
  unfold traceOk
  rcases phase_cases c env resolved applied hostname auto pre with
    ⟨e, hres, htr | htr⟩ | ⟨hres, htr⟩ <;>
    rcases hpre with rfl | rfl <;>
    rw [htr, hres] <;>
    exact ⟨by simp [List.chain'_cons, ConnState.rank], by decide, by simp,
      by simp⟩

/-- C2 witness. -/
theorem tunnel_hostname_substitution_witness :
    (VerifiedHTTPSConnection.connect
        ⟨⟨"proxy.local", 8443, none, none, some "target.example"⟩,
          some .certRequired, some ⟨none, .unset⟩⟩
        ⟨true, true, some ⟨["target.example"], [1]⟩⟩).auto_open = 0 ∧
    (("target.example" : String) = "target.example" ∧
      ("target.example" : String) ≠ "proxy.local") :=
  ⟨(tunnel_hostname_substitution
      ⟨⟨"proxy.local", 8443, none, none, some "target.example"⟩,
        some .certRequired, some ⟨none, .unset⟩⟩
      ⟨true, true, some ⟨["target.example"], [1]⟩⟩ "target.example"
      rfl rfl rfl (by decide)).1,
   (tunnel_hostname_substitution
      ⟨⟨"proxy.local", 8443, none, none, some "target.example"⟩,
        some .certRequired, some ⟨none, .unset⟩⟩
      ⟨true, true, some ⟨["target.example"], [1]⟩⟩ "target.example"
      rfl rfl rfl (by decide)).2.2 ⟨none, .unset⟩ rfl rfl
     ["target.example"] "target.example" (by decide)⟩

/-- C6: when the resolved certificate-requirement value is `CERT_NONE`,
neither the fingerprint check nor the hostname check is invoked, whatever the
environment does. -/
theorem cert_none_no_checks (c : VerifiedConfig) (env : Env)
    (hr : resolve_cert_reqs c.cert_reqs = .certNone) :
    (VerifiedHTTPSConnection.connect c env).checks = [] := by
  cases hd : env.dialOk <;> cases htn : c.base.tunnel_host <;>
    cases htk : env.tunnelOk <;> cases hh : env.handshake <;>
    simp [VerifiedHTTPSConnection.connect, verifiedTLSPhase, hd, htn, htk,
      hh, hr]

/-- C6 witness. -/
theorem cert_none_no_checks_witness :
    (VerifiedHTTPSConnection.connect
        ⟨⟨"h", 443, none, none, none⟩, some .certNone, none⟩
        ⟨true, false, some ⟨["other"], [9]⟩⟩).checks = [] :=
  cert_none_no_checks ⟨⟨"h", 443, none, none, none⟩, some .certNone, none⟩
    ⟨true, false, some ⟨["other"], [9]⟩⟩ rfl

/-- C10: without a prior `set_cert` call the verification attributes do not
exist, so whenever the resolved verification mode is not `CERT_NONE` the
verified variant's `connect` never succeeds — on the path that reaches the
post-handshake check it fails with `AttributeError` on `assert_fingerprint` —
and it never silently falls back to checking the connection host (no check
runs at all); `set_cert` is what creates the attributes. -/
theorem no_set_cert_fails (c : VerifiedConfig) (env : Env)
    (ha : c.certAttrs = none)
    (hr : resolve_cert_reqs c.cert_reqs ≠ .certNone) :
    (VerifiedHTTPSConnection.connect c env).result ≠ .ok () ∧
    (VerifiedHTTPSConnection.connect c env).checks = [] ∧
    (env.dialOk = true → (c.base.tunnel_host = none ∨ env.tunnelOk = true) →
      (∃ cert, env.handshake = some cert) →
      (VerifiedHTTPSConnection.connect c env).result
        = .error (.attrErr "assert_fingerprint")) ∧
    ∀ cr fp ah, (set_cert c cr fp ah).certAttrs = some ⟨fp, ah⟩ := by
  refine ⟨?_, ?_, ?_, fun cr fp ah => rfl⟩
  · cases hd : env.dialOk <;> cases htn : c.base.tunnel_host <;>
      cases htk : env.tunnelOk <;> cases hh : env.handshake <;>
      simp [VerifiedHTTPSConnection.connect, verifiedTLSPhase, hd, htn, htk,
        hh, hr, ha]
  · cases hd : env.dialOk <;> cases htn : c.base.tunnel_host <;>
      cases htk : env.tunnelOk <;> cases hh : env.handshake <;>
      simp [VerifiedHTTPSConnection.connect, verifiedTLSPhase, hd, htn, htk,
        hh, hr, ha]
  · rintro hd ht ⟨cert, hh⟩
    rcases ht with ht | htk
    · rw [verified_connect_no_tunnel c env hd ht]
      simp [verifiedTLSPhase, hh, hr, ha]
    · cases htn : c.base.tunnel_host with
      | none =>
        rw [verified_connect_no_tunnel c env hd htn]
        simp [verifiedTLSPhase, hh, hr, ha]
      | some th =>
        rw [verified_connect_tunnel c env th hd htn htk]
        simp [verifiedTLSPhase, hh, hr, ha]

/-- C10 witness. -/
theorem no_set_cert_fails_witness :
    (VerifiedHTTPSConnection.connect
        ⟨⟨"h", 443, none, none, none⟩, some .certRequired, none⟩
        ⟨true, false, some ⟨["h"], [1]⟩⟩).result
      = .error (.attrErr "assert_fingerprint") :=
  (no_set_cert_fails ⟨⟨"h", 443, none, none, none⟩, some .certRequired, none⟩
    ⟨true, false, some ⟨["h"], [1]⟩⟩ rfl (by simp [resolve_cert_reqs])).2.2.1
    rfl (Or.inl rfl) ⟨⟨["h"], [1]⟩, rfl⟩

/-- C8 witness. -/
theorem plain_and_unverified_tunnel_witness :
    (HTTPConnection.connect ⟨"proxy", 8080, none, none, some "target"⟩
        ⟨true, true, some ⟨["target"], [1]⟩⟩).auto_open = 0 :=
  (plain_and_unverified_tunnel ⟨"proxy", 8080, none, none, some "target"⟩
    ⟨true, true, some ⟨["target"], [1]⟩⟩ "target" rfl rfl rfl).1

/-- C7: every connection attempt, in every variant, moves through the states
Unconnected → RawConnected → (optionally Tunneled) → (optionally TLSWrapped)
→ Ready monotonically forward, with no cycles or backtracking; a failure at
any step is terminal — the trace ends at `Failed` exactly when the attempt
fails and at `Ready` exactly when it succeeds, and no step is retried. -/
theorem state_machine_linear (c : Config) (vc : VerifiedConfig) (env : Env) :
    traceOk (HTTPConnection.connect c env) ∧
    traceOk (HTTPSConnection.connect c env) ∧
    traceOk (VerifiedHTTPSConnection.connect vc env) := by
  refine ⟨?_, ?_, ?_⟩
  · cases hd : env.dialOk <;> cases htn : c.tunnel_host <;>
      cases htk : env.tunnelOk <;>
      simp [HTTPConnection.connect, traceOk, hd, htn, htk,
        List.chain'_cons, List.getLast?_cons_cons, List.getLast?_singleton,
        ConnState.rank]
  · cases hd : env.dialOk <;> cases htn : c.tunnel_host <;>
      cases htk : env.tunnelOk <;> cases hh : env.handshake <;>
      simp [HTTPSConnection.connect, traceOk, hd, htn, htk, hh,
        List.chain'_cons, List.getLast?_cons_cons, List.getLast?_singleton,
        ConnState.rank]
  · cases hd : env.dialOk
    · simp [VerifiedHTTPSConnection.connect, traceOk, hd,
        List.chain'_cons, List.getLast?_cons_cons, List.getLast?_singleton,
        ConnState.rank]
    · cases htn : vc.base.tunnel_host with
      | none =>
        rw [verified_connect_no_tunnel vc env hd htn]
        exact traceOk_phase vc env _ _ _ _ _ (Or.inl rfl)
      | some th =>
        cases htk : env.tunnelOk
        · simp [VerifiedHTTPSConnection.connect, traceOk, hd, htn, htk,
            List.chain'_cons, List.getLast?_cons_cons,
            List.getLast?_singleton, ConnState.rank]
        · rw [verified_connect_tunnel vc env th hd htn htk]
          exact traceOk_phase vc env _ _ _ _ _ (Or.inr rfl)

end Urllib3
